import Mathlib

/-!
Verification of the Boat-Load assignment subsystem of the cargo-management
REST API (`boats.js`).  The datastore is embedded as two association lists
(Boat records keyed by numeric id, Load records keyed by numeric id); each
route handler of `boats.js` becomes a pure function from a datastore and a
request to an outcome carrying the HTTP response that was sent (if any),
the datastore after the handler ran, and the ordered list of write
operations the handler issued.
-/

namespace CargoAPI

/-- A datastore key, as built by `datastore.key(['Boat', datastore.int(id)])`:
a kind string together with a numeric id. -/
structure Key where
  kind : String
  id : Nat
deriving DecidableEq

/-- The key for Boat `id`, mirroring `datastore.key(['Boat', datastore.int(boat_id)])`. -/
def boatKeyOf (id : Nat) : Key := ⟨"Boat", id⟩

/-- The key for Load `id`, mirroring `datastore.key(['Load', datastore.int(load_id)])`. -/
def loadKeyOf (id : Nat) : Key := ⟨"Load", id⟩

/-- A stored Boat record.  `owner` and `isPublic` are `Option` because the
assign/unassign handlers overwrite the record with an object literal
`{name, type, length, loads}` that carries neither property; `none` models
the absent (JavaScript `undefined`) property. -/
structure BoatRecord where
  name : String
  type : String
  length : Nat
  loads : List Key
  owner : Option String
  isPublic : Option Bool
deriving DecidableEq

/-- A stored Load record; `carrier` is `null` (here `none`) or a Boat key. -/
structure LoadRecord where
  volume : Nat
  carrier : Option Key
  content : String
  creation_date : String
deriving DecidableEq

/-- The datastore: Boat entities and Load entities, keyed by numeric id. -/
structure Datastore where
  boats : List (Nat × BoatRecord)
  loads : List (Nat × LoadRecord)
deriving DecidableEq

/-- Point read by key id, as `datastore.get(key)`: first entry with the id. -/
def lookupRec {α : Type} : List (Nat × α) → Nat → Option α
  | [], _ => none
  | (j, r) :: t, i => if j = i then some r else lookupRec t i

/-- Whole-record overwrite by key, as `datastore.update({key, data})`:
every entry whose key matches is replaced (store keys are unique). -/
def replaceRec {α : Type} : List (Nat × α) → Nat → α → List (Nat × α)
  | [], _, _ => []
  | (j, v) :: t, i, r => if j = i then (i, r) :: replaceRec t i r else (j, v) :: replaceRec t i r

/-- Deletion by key, as `datastore.delete(key)`. -/
def removeRec {α : Type} : List (Nat × α) → Nat → List (Nat × α)
  | [], _ => []
  | (j, v) :: t, i => if j = i then removeRec t i else (j, v) :: removeRec t i

/-- An HTTP response sent by a handler: status code plus the optional
`{Error: "..."}` body message (`none` for an empty body, as with 204). -/
structure HttpResponse where
  status : Nat
  error : Option String
deriving DecidableEq

/-- One write operation issued against the datastore, recorded in order. -/
inductive WriteOp where
  | updateBoat (id : Nat) (r : BoatRecord) : WriteOp
  | updateLoad (id : Nat) (r : LoadRecord) : WriteOp
  | deleteBoatRec (id : Nat) : WriteOp
deriving DecidableEq

/-- The observable outcome of running one route handler: the response that
was sent (`none` when the handler fell through without sending anything),
the datastore afterwards, and the ordered write trace. -/
structure HandlerOutcome where
  response : Option HttpResponse
  db : Datastore
  writes : List WriteOp
deriving DecidableEq

/-- Outcome of a branch that sends a response and performs no write. -/
def noWrite (db : Datastore) (status : Nat) (msg : String) : HandlerOutcome :=
  ⟨some ⟨status, some msg⟩, db, []⟩

/-- A request to `PUT /boats/:boat_id/loads/:load_id` or
`DELETE /boats/:boat_id/loads/:load_id`: the authentication flag set by the
middleware and the two URL parameters. -/
structure LoadRouteReq where
  authenticated : Bool
  boat_id : Nat
  load_id : Nat
deriving DecidableEq

/-- Embeds `router.put('/:boat_id/loads/:load_id', ...)` of `boats.js`
(PUT A LOAD IN A BOAT).  The whole body is guarded by
`if (req.authenticated)` with no else branch, so an unauthenticated
request produces no response.  On the success path the handler pushes the
load key onto the boat's `loads`, overwrites the Boat record with
`{name, type, length, loads}` (dropping `owner` and `isPublic`), then
overwrites the Load record with `{volume, carrier: boatKey, content,
creation_date}` — Boat write first, Load write second. -/
def putLoadInBoat (db : Datastore) (req : LoadRouteReq) : HandlerOutcome :=
  if req.authenticated then
    let boatKey := boatKeyOf req.boat_id
    let loadKey := loadKeyOf req.load_id
    match lookupRec db.boats req.boat_id, lookupRec db.loads req.load_id with
    | none, none => noWrite db 404 "The specified boat and load does not exist"
    | none, some _ => noWrite db 404 "The specified boat does not exist"
    | some _, none => noWrite db 404 "The specified load does not exist"
    | some boatResult, some loadResult =>
      match loadResult.carrier with
      | some c =>
        if c.id = boatKey.id then
          noWrite db 403 "The specified load has already been assigned to this boat."
        else
          noWrite db 403 "The specified load has already been assigned to another boat."
      | none =>
        let newBoat : BoatRecord :=
          { name := boatResult.name, type := boatResult.type,
            length := boatResult.length, loads := boatResult.loads ++ [loadKey],
            owner := none, isPublic := none }
        let db1 : Datastore := { db with boats := replaceRec db.boats req.boat_id newBoat }
        let newLoad : LoadRecord :=
          { volume := loadResult.volume, carrier := some boatKey,
            content := loadResult.content, creation_date := loadResult.creation_date }
        let db2 : Datastore := { db1 with loads := replaceRec db1.loads req.load_id newLoad }
        ⟨some ⟨204, none⟩, db2,
          [WriteOp.updateBoat req.boat_id newBoat, WriteOp.updateLoad req.load_id newLoad]⟩
  else ⟨none, db, []⟩

/-- Modelled from the spec: the helper `keysAreEqual` called at line 343 of
`boats.js` is not among the files available here; the spec states the
unassign guard compares "by identifier equality, not reference equality",
so two keys are considered equal exactly when their numeric ids agree. -/
def keysAreEqual (a b : Key) : Bool := a.id == b.id

/-- Embeds `router.delete('/:boat_id/loads/:load_id', ...)` of `boats.js`
(REMOVE A LOAD FROM A BOAT).  Same unauthenticated fall-through as the
assign handler.  The guard rejects when the load's `carrier` is null or
fails `keysAreEqual(carrier, boatKey)`; otherwise the boat's `loads` is
filtered by `element.id !== loadKey.id`, the Boat record is overwritten
(again as `{name, type, length, loads}`), then the Load record is
overwritten with `carrier: null`. -/
def removeLoadFromBoat (db : Datastore) (req : LoadRouteReq) : HandlerOutcome :=
  if req.authenticated then
    let boatKey := boatKeyOf req.boat_id
    let loadKey := loadKeyOf req.load_id
    match lookupRec db.boats req.boat_id, lookupRec db.loads req.load_id with
    | none, none => noWrite db 404 "The specified boat and load does not exist"
    | none, some _ => noWrite db 404 "The specified boat does not exist"
    | some _, none => noWrite db 404 "The specified load does not exist"
    | some boatResult, some loadResult =>
      match loadResult.carrier with
      | none => noWrite db 403 "The specified load is not on this boat."
      | some c =>
        if keysAreEqual c boatKey then
          let newBoat : BoatRecord :=
            { name := boatResult.name, type := boatResult.type,
              length := boatResult.length,
              loads := boatResult.loads.filter (fun e => e.id != loadKey.id),
              owner := none, isPublic := none }
          let db1 : Datastore := { db with boats := replaceRec db.boats req.boat_id newBoat }
          let newLoad : LoadRecord :=
            { volume := loadResult.volume, carrier := none,
              content := loadResult.content, creation_date := loadResult.creation_date }
          let db2 : Datastore := { db1 with loads := replaceRec db1.loads req.load_id newLoad }
          ⟨some ⟨204, none⟩, db2,
            [WriteOp.updateBoat req.boat_id newBoat, WriteOp.updateLoad req.load_id newLoad]⟩
        else noWrite db 403 "The specified load is not on this boat."
  else ⟨none, db, []⟩

/-- A request to `DELETE /boats/:boat_id`: authentication flag, the
principal identifier `req.sub` attached by the middleware, and the URL
parameter. -/
structure DeleteBoatReq where
  authenticated : Bool
  sub : String
  boat_id : Nat
deriving DecidableEq

/-- Embeds `router.delete('/:boat_id', ...)` of `boats.js` (DELETE A BOAT).
The boat is fetched through `h.getBoatFromID` (a point read by id, modelled
as `lookupRec`); a missing boat answers 403, an owner mismatch
(`boatResult.owner !== req.sub`, where an absent `owner` property compares
unequal to any string) answers 403, and otherwise the boat entity is
deleted unconditionally — there is no check on the boat's `loads` and no
write to any Load record. -/
def deleteBoat (db : Datastore) (req : DeleteBoatReq) : HandlerOutcome :=
  if req.authenticated then
    match lookupRec db.boats req.boat_id with
    | none => noWrite db 403 "No boat with this boat_id exists"
    | some boatResult =>
      if boatResult.owner = some req.sub then
        ⟨some ⟨204, none⟩, { db with boats := removeRec db.boats req.boat_id },
          [WriteOp.deleteBoatRec req.boat_id]⟩
      else noWrite db 403 "This boat_id exists but you are not the owner."
  else ⟨some ⟨401, some "You must be authenticated to perform this action."⟩, db, []⟩

/-- A request to `GET /boats/:boat_id`: the raw URL parameter (`none`
models a falsy `boat_id`) and the request fields used to build self-links. -/
structure GetBoatReq where
  boat_id : Option Nat
  protocol : String
  host : String
  baseUrl : String
deriving DecidableEq

/-- The self-link of Boat `i`, as built at line 110 of `boats.js`:
`req.protocol + "://" + req.get("host") + req.baseUrl + "/" + key.id`. -/
def boatSelf (req : GetBoatReq) (i : Nat) : String :=
  req.protocol ++ "://" ++ req.host ++ req.baseUrl ++ "/" ++ toString i

/-- The self-link of Load `i`, as built at line 117 of `boats.js`:
`req.protocol + "://" + req.get("host") + "/loads/" + key.id`. -/
def loadSelf (req : GetBoatReq) (i : Nat) : String :=
  req.protocol ++ "://" ++ req.host ++ "/loads/" ++ toString i

/-- A JavaScript runtime error: `TypeError` (property access on
`undefined`) or `ReferenceError` (an identifier that is not in scope). -/
inductive JsError where
  | typeError : JsError
  | referenceError : JsError
deriving DecidableEq

/-- The `{id, self}` projection of one load reference in a single-Boat
fetch. -/
structure LoadView where
  id : Nat
  self : String
deriving DecidableEq

/-- The projection a single-Boat fetch returns: the `newBoatResult` object
of lines 127-134 of `boats.js`.  `id` is the key id stringified; `loads`
holds the `{id, self}` projections. -/
structure BoatView where
  id : String
  name : String
  type : String
  length : Nat
  loads : List LoadView
  self : String
deriving DecidableEq

/-- Embeds the `Promise.all(boatResult.loads.map(...))` fan-out of lines
115-124 of `boats.js`: for each stored load key, `datastore.get(load)` is
awaited, and `loadResult[datastore.KEY].id` is read.  When the referenced
Load record no longer exists the read comes back `undefined` and the
property access throws a `TypeError`, rejecting the whole fan-out. -/
def hydrateLoads (db : Datastore) (req : GetBoatReq) : List Key → Except JsError (List LoadView)
  | [] => Except.ok []
  | k :: ks =>
    match lookupRec db.loads k.id with
    | none => Except.error JsError.typeError
    | some _ =>
      match hydrateLoads db req ks with
      | Except.error e => Except.error e
      | Except.ok vs => Except.ok (⟨k.id, loadSelf req k.id⟩ :: vs)

/-- What a single-Boat fetch sends: a 404 response, or the projection. -/
inductive GetBoatOutcome where
  | failure (r : HttpResponse) : GetBoatOutcome
  | success (v : BoatView) : GetBoatOutcome
deriving DecidableEq

/-- Embeds `router.get('/:boat_id', ...)` of `boats.js` (GET A SPECIFIC
BOAT): a falsy or unresolvable `boat_id` answers 404, and otherwise the
stored record is projected to `{id, name, type, length, loads, self}` with
each load reference hydrated by `hydrateLoads`. -/
def getBoat (db : Datastore) (req : GetBoatReq) : Except JsError GetBoatOutcome :=
  match req.boat_id with
  | none => Except.ok (GetBoatOutcome.failure ⟨404, some "No boat with this boat_id exists"⟩)
  | some bid =>
    match lookupRec db.boats bid with
    | none => Except.ok (GetBoatOutcome.failure ⟨404, some "No boat with this boat_id exists"⟩)
    | some boatResult =>
      match hydrateLoads db req boatResult.loads with
      | Except.error e => Except.error e
      | Except.ok views =>
        Except.ok (GetBoatOutcome.success
          { id := toString bid, name := boatResult.name, type := boatResult.type,
            length := boatResult.length, loads := views, self := boatSelf req bid })

/-- The identifiers bound at module level in `boats.js` (lines 11-21):
the imports `Boat`, `datastore`, `express`, `router`, `h`, `m` and the
middleware chain `validate`.  Note the helpers module is bound as `h`,
not as `helper`. -/
def boatsModuleScope : List String :=
  ["Boat", "datastore", "express", "router", "h", "m", "validate"]

/-- Resolution of an identifier against a scope, as JavaScript does before
a property access: an unbound identifier throws a `ReferenceError`. -/
def resolveIdent (scope : List String) (x : String) : Except JsError String :=
  if x ∈ scope then Except.ok x else Except.error JsError.referenceError

/-- A request to `PATCH /boats/:boat_id` or `PUT /boats/:boat_id` after the
validation middleware has passed: the URL parameter and the body fields. -/
structure UpdateBoatReq where
  boat_id : Nat
  name : String
  type : String
  length : Nat
deriving DecidableEq

/-- Embeds `router.patch('/:boat_id', ...)` of `boats.js` (UPDATE A BOAT,
PARTIAL).  The first statement of the body evaluates
`helper.requestIsValid(req, res)`, so the identifier `helper` is resolved
in the module scope before anything else runs; the later statements
(`helper.getBoatFromID`, the duplicate-name check, `datastore.update`) are
dead code behind that resolution and are modelled as the point read and the
overwrite they would perform. -/
def patchBoat (db : Datastore) (req : UpdateBoatReq) : Except JsError (HttpResponse × Datastore) := do
  let _hv ← resolveIdent boatsModuleScope "helper"
  let _hg ← resolveIdent boatsModuleScope "helper"
  match lookupRec db.boats req.boat_id with
  | none => Except.ok (⟨404, some "A boat with this boat_id was not found."⟩, db)
  | some b =>
    let b2 : BoatRecord := { b with name := req.name, type := req.type, length := req.length }
    Except.ok (⟨200, none⟩, { db with boats := replaceRec db.boats req.boat_id b2 })

/-- Embeds `router.put('/:boat_id', ...)` of `boats.js` (COMPLETELY UPDATE
A BOAT).  Like the PATCH handler, its first statement evaluates
`helper.requestIsValid(req, res)`; the rest of the body is dead code behind
that resolution and is modelled as the point read and overwrite it would
perform. -/
def putBoat (db : Datastore) (req : UpdateBoatReq) : Except JsError (HttpResponse × Datastore) := do
  let _hv ← resolveIdent boatsModuleScope "helper"
  let _hg ← resolveIdent boatsModuleScope "helper"
  match lookupRec db.boats req.boat_id with
  | none => Except.ok (⟨404, some "A boat with this boat_id was not found."⟩, db)
  | some b =>
    let b2 : BoatRecord := { b with name := req.name, type := req.type, length := req.length }
    Except.ok (⟨303, none⟩, { db with boats := replaceRec db.boats req.boat_id b2 })

/-- One Load entry satisfies the carrier side of the central invariant:
if its `carrier` is set, the referenced Boat exists and its `loads`
collection contains this load's key. -/
def loadEntryOk (db : Datastore) (lid : Nat) (l : LoadRecord) : Bool :=
  match l.carrier with
  | none => true
  | some k =>
    match lookupRec db.boats k.id with
    | none => false
    | some b => decide (loadKeyOf lid ∈ b.loads)

/-- One Boat entry satisfies the loads side of the central invariant:
every key in its `loads` collection resolves to a Load whose `carrier` is
exactly this boat's key. -/
def boatEntryOk (db : Datastore) (bid : Nat) (b : BoatRecord) : Bool :=
  b.loads.all (fun k =>
    match lookupRec db.loads k.id with
    | none => false
    | some l => l.carrier == some (boatKeyOf bid))

/-- The central two-sided invariant of the spec, over the whole store. -/
def Inv (db : Datastore) : Bool :=
  db.loads.all (fun p => loadEntryOk db p.1 p.2) &&
  db.boats.all (fun p => boatEntryOk db p.1 p.2)

/-- The Boat record the assign path writes: the source object literal
`{name, type, length, loads}` with the load key pushed, `owner` and
`isPublic` absent. -/
def assignedBoat (b : BoatRecord) (lid : Nat) : BoatRecord :=
  { name := b.name, type := b.type, length := b.length,
    loads := b.loads ++ [loadKeyOf lid], owner := none, isPublic := none }

/-- The Load record the assign path writes: `carrier` set to the boat key. -/
def assignedLoad (l : LoadRecord) (bid : Nat) : LoadRecord :=
  { volume := l.volume, carrier := some (boatKeyOf bid),
    content := l.content, creation_date := l.creation_date }

/-- The Boat record the unassign path writes: `loads` filtered by
`element.id !== loadKey.id`, `owner` and `isPublic` absent. -/
def unassignedBoat (b : BoatRecord) (lid : Nat) : BoatRecord :=
  { name := b.name, type := b.type, length := b.length,
    loads := b.loads.filter (fun e => e.id != lid), owner := none, isPublic := none }

/-- The Load record the unassign path writes: `carrier` set back to null. -/
def unassignedLoad (l : LoadRecord) : LoadRecord :=
  { volume := l.volume, carrier := none,
    content := l.content, creation_date := l.creation_date }

/-- Sample Boat: the concrete scenario boat of the spec, stored with its
creator as owner and an empty `loads` collection. -/
def orcaBoat : BoatRecord :=
  ⟨"Orca", "sailboat", 28, [], some "alice", some true⟩

/-- A second sample Boat, for the reassignment round trip. -/
def pequodBoat : BoatRecord :=
  ⟨"Pequod", "whaler", 60, [], some "alice", some true⟩

/-- Sample Load 9 of the concrete scenario, unassigned. -/
def beansLoad : LoadRecord := ⟨5, none, "beans", "05/01/2021"⟩

/-- Sample Load 9 after it has been assigned to Boat 1. -/
def carriedLoad : LoadRecord := ⟨5, some (boatKeyOf 1), "beans", "05/01/2021"⟩

/-- Sample Boat 1 while it carries Load 9 (owner still present, as for a
record never rewritten by the assign path). -/
def loadedBoat : BoatRecord :=
  ⟨"Orca", "sailboat", 28, [loadKeyOf 9], some "alice", some true⟩

/-- Store holding Boat 1 and unassigned Load 9. -/
def dbSample : Datastore := ⟨[(1, orcaBoat)], [(9, beansLoad)]⟩

/-- Store holding Boats 1 and 2 and unassigned Load 9. -/
def dbTwoBoats : Datastore := ⟨[(1, orcaBoat), (2, pequodBoat)], [(9, beansLoad)]⟩

/-- Store where Boat 1 carries Load 9 and both sides of the relationship
are recorded. -/
def dbAssigned : Datastore := ⟨[(1, loadedBoat)], [(9, carriedLoad)]⟩

/-- Store where Boat 1 still references Load 9 but the Load record has been
deleted out of band. -/
def dbDangling : Datastore := ⟨[(1, loadedBoat)], []⟩

/-- An authenticated request naming Boat 1 and Load 9. -/
def reqA19 : LoadRouteReq := ⟨true, 1, 9⟩

/-- An authenticated delete request for Boat 1 from its owner. -/
def delReqAlice : DeleteBoatReq := ⟨true, "alice", 1⟩

/-- A single-Boat fetch request for Boat 1. -/
def getReqSample : GetBoatReq := ⟨some 1, "http", "example.com", "/boats"⟩

/-- The store after assigning Load 9 to Boat 1 in `dbSample`. -/
def dbAfterAssign : Datastore := (putLoadInBoat dbSample reqA19).db

/-- The Boat 1 record stored by that assignment (owner dropped). -/
def orcaAfter : BoatRecord :=
  ⟨"Orca", "sailboat", 28, [loadKeyOf 9], none, none⟩

theorem lookupRec_replaceRec {α : Type} (l : List (Nat × α)) (i j : Nat) (r : α) :
    lookupRec (replaceRec l i r) j =
      if j = i then (lookupRec l i).map (fun _ => r) else lookupRec l j := by
  induction l with
  | nil => simp [lookupRec, replaceRec]
  | cons hd tl ih =>
    obtain ⟨k, v⟩ := hd
    by_cases hk : k = i
    · subst hk
      by_cases hj : k = j
      · subst hj
        simp [replaceRec, lookupRec]
      · simp [replaceRec, lookupRec, hj, Ne.symm hj, ih]
    · by_cases hj : k = j
      · subst hj
        simp [replaceRec, lookupRec, hk, fun h : k = i => hk h]
      · simp [replaceRec, lookupRec, hk, hj, ih]

theorem lookupRec_removeRec {α : Type} (l : List (Nat × α)) (i j : Nat) :
    lookupRec (removeRec l i) j = if j = i then none else lookupRec l j := by
  induction l with
  | nil => simp [lookupRec, removeRec]
  | cons hd tl ih =>
    obtain ⟨k, v⟩ := hd
    by_cases hk : k = i
    · subst hk
      by_cases hj : k = j
      · subst hj
        simp [removeRec, lookupRec, ih]
      · simp [removeRec, lookupRec, hj, Ne.symm hj, ih]
    · by_cases hj : k = j
      · subst hj
        simp [removeRec, lookupRec, hk, ih]
      · simp [removeRec, lookupRec, hk, hj, ih]

theorem lookupRec_mem {α : Type} {l : List (Nat × α)} {i : Nat} {r : α}
    (h : lookupRec l i = some r) : (i, r) ∈ l := by
  induction l with
  | nil => simp [lookupRec] at h
  | cons hd tl ih =>
    obtain ⟨k, v⟩ := hd
    by_cases hk : k = i
    · subst hk
      simp [lookupRec] at h
      subst h
      exact List.mem_cons_self _ _
    · simp [lookupRec, hk] at h
      exact List.mem_cons_of_mem _ (ih h)

theorem mem_replaceRec {α : Type} {l : List (Nat × α)} {i : Nat} {r : α} {p : Nat × α}
    (h : p ∈ replaceRec l i r) : p = (i, r) ∨ (p ∈ l ∧ p.1 ≠ i) := by
  induction l with
  | nil => simp [replaceRec] at h
  | cons hd tl ih =>
    obtain ⟨j, v⟩ := hd
    by_cases hj : j = i
    · rw [replaceRec, if_pos hj] at h
      rcases List.mem_cons.mp h with h1 | h1
      · exact Or.inl h1
      · rcases ih h1 with h2 | ⟨h2, h3⟩
        · exact Or.inl h2
        · exact Or.inr ⟨List.mem_cons_of_mem _ h2, h3⟩
    · rw [replaceRec, if_neg hj] at h
      rcases List.mem_cons.mp h with h1 | h1
      · subst h1
        exact Or.inr ⟨List.mem_cons_self _ _, hj⟩
      · rcases ih h1 with h2 | ⟨h2, h3⟩
        · exact Or.inl h2
        · exact Or.inr ⟨List.mem_cons_of_mem _ h2, h3⟩

theorem loadEntryOk_iff (db : Datastore) (lid : Nat) (l : LoadRecord) :
    loadEntryOk db lid l = true ↔
      ∀ k, l.carrier = some k →
        ∃ b, lookupRec db.boats k.id = some b ∧ loadKeyOf lid ∈ b.loads := by
  cases hc : l.carrier with
  | none => simp [loadEntryOk, hc]
  | some k =>
    cases hb : lookupRec db.boats k.id with
    | none => simp [loadEntryOk, hc, hb]
    | some b => simp [loadEntryOk, hc, hb]

theorem boatEntryOk_iff (db : Datastore) (bid : Nat) (b : BoatRecord) :
    boatEntryOk db bid b = true ↔
      ∀ k ∈ b.loads,
        ∃ l, lookupRec db.loads k.id = some l ∧ l.carrier = some (boatKeyOf bid) := by
  rw [boatEntryOk, List.all_eq_true]
  refine forall_congr' (fun k => forall_congr' (fun hk => ?_))
  cases hl : lookupRec db.loads k.id with
  | none => simp [hl]
  | some l => simp [hl]

theorem Inv_iff (db : Datastore) :
    Inv db = true ↔
      (∀ p ∈ db.loads, loadEntryOk db p.1 p.2 = true) ∧
      (∀ p ∈ db.boats, boatEntryOk db p.1 p.2 = true) := by
  simp [Inv, List.all_eq_true, Bool.and_eq_true]

theorem putLoadInBoat_success (db : Datastore) (req : LoadRouteReq)
    {b : BoatRecord} {l : LoadRecord}
    (ha : req.authenticated = true)
    (hb : lookupRec db.boats req.boat_id = some b)
    (hl : lookupRec db.loads req.load_id = some l)
    (hc : l.carrier = none) :
    putLoadInBoat db req =
      ⟨some ⟨204, none⟩,
       ⟨replaceRec db.boats req.boat_id (assignedBoat b req.load_id),
        replaceRec db.loads req.load_id (assignedLoad l req.boat_id)⟩,
       [WriteOp.updateBoat req.boat_id (assignedBoat b req.load_id),
        WriteOp.updateLoad req.load_id (assignedLoad l req.boat_id)]⟩ := by
  simp [putLoadInBoat, ha, hb, hl, hc, assignedBoat, assignedLoad, loadKeyOf, boatKeyOf]

theorem removeLoadFromBoat_success (db : Datastore) (req : LoadRouteReq)
    {b : BoatRecord} {l : LoadRecord} {c : Key}
    (ha : req.authenticated = true)
    (hb : lookupRec db.boats req.boat_id = some b)
    (hl : lookupRec db.loads req.load_id = some l)
    (hc : l.carrier = some c)
    (hk : keysAreEqual c (boatKeyOf req.boat_id) = true) :
    removeLoadFromBoat db req =
      ⟨some ⟨204, none⟩,
       ⟨replaceRec db.boats req.boat_id (unassignedBoat b req.load_id),
        replaceRec db.loads req.load_id (unassignedLoad l)⟩,
       [WriteOp.updateBoat req.boat_id (unassignedBoat b req.load_id),
        WriteOp.updateLoad req.load_id (unassignedLoad l)]⟩ := by
  have hk2 : keysAreEqual c ⟨"Boat", req.boat_id⟩ = true := by
    simpa [boatKeyOf] using hk
  simp [removeLoadFromBoat, ha, hb, hl, hc, hk, hk2, unassignedBoat, unassignedLoad,
    loadKeyOf, boatKeyOf]

theorem Inv_assign_db {db : Datastore} {bid lid : Nat} {b : BoatRecord} {l : LoadRecord}
    (hb : lookupRec db.boats bid = some b)
    (hl : lookupRec db.loads lid = some l)
    (hc : l.carrier = none)
    (h : Inv db = true) :
    Inv ⟨replaceRec db.boats bid (assignedBoat b lid),
         replaceRec db.loads lid (assignedLoad l bid)⟩ = true := by
  rcases (Inv_iff db).mp h with ⟨h1, h2⟩
  apply (Inv_iff _).mpr
  refine ⟨?_, ?_⟩ <;> dsimp only
  · intro p hp
    rcases mem_replaceRec hp with rfl | ⟨hpo, hpne⟩
    · apply (loadEntryOk_iff _ _ _).mpr
      intro k hk
      dsimp [assignedLoad] at hk
      obtain rfl := Option.some.inj hk
      refine ⟨assignedBoat b lid, ?_, ?_⟩
      · rw [lookupRec_replaceRec]
        simp [boatKeyOf, hb]
      · simp [assignedBoat]
    · have hold := (loadEntryOk_iff db p.1 p.2).mp (h1 p hpo)
      apply (loadEntryOk_iff _ _ _).mpr
      intro k hk
      obtain ⟨b0, hb0, hmem⟩ := hold k hk
      by_cases hki : k.id = bid
      · have hbb : b = b0 := Option.some.inj (hb.symm.trans (hki ▸ hb0))
        refine ⟨assignedBoat b lid, ?_, ?_⟩
        · rw [lookupRec_replaceRec, if_pos hki]
          simp [hb]
        · rw [← hbb] at hmem
          simp [assignedBoat]
          exact Or.inl hmem
      · refine ⟨b0, ?_, hmem⟩
        rw [lookupRec_replaceRec, if_neg hki]
        exact hb0
  · intro p hp
    rcases mem_replaceRec hp with rfl | ⟨hpo, hpne⟩
    · apply (boatEntryOk_iff _ _ _).mpr
      intro k hk
      dsimp [assignedBoat] at hk
      rcases List.mem_append.mp hk with hk1 | hk1
      · have hmemb : (bid, b) ∈ db.boats := lookupRec_mem hb
        obtain ⟨l0, hl0, hcar⟩ := (boatEntryOk_iff db bid b).mp (h2 _ hmemb) k hk1
        by_cases hki : k.id = lid
        · exfalso
          have hll : l = l0 := Option.some.inj (hl.symm.trans (hki ▸ hl0))
          rw [← hll, hc] at hcar
          exact Option.noConfusion hcar
        · refine ⟨l0, ?_, hcar⟩
          rw [lookupRec_replaceRec, if_neg hki]
          exact hl0
      · obtain rfl := List.mem_singleton.mp hk1
        refine ⟨assignedLoad l bid, ?_, ?_⟩
        · rw [lookupRec_replaceRec]
          simp [loadKeyOf, hl]
        · simp [assignedLoad]
    · have hold := (boatEntryOk_iff db p.1 p.2).mp (h2 p hpo)
      apply (boatEntryOk_iff _ _ _).mpr
      intro k hk
      obtain ⟨l0, hl0, hcar⟩ := hold k hk
      by_cases hki : k.id = lid
      · exfalso
        have hll : l = l0 := Option.some.inj (hl.symm.trans (hki ▸ hl0))
        rw [← hll, hc] at hcar
        exact Option.noConfusion hcar
      · refine ⟨l0, ?_, hcar⟩
        rw [lookupRec_replaceRec, if_neg hki]
        exact hl0

theorem Inv_unassign_db {db : Datastore} {bid lid : Nat} {b : BoatRecord} {l : LoadRecord}
    {c : Key}
    (hb : lookupRec db.boats bid = some b)
    (hl : lookupRec db.loads lid = some l)
    (hc : l.carrier = some c)
    (hcid : c.id = bid)
    (h : Inv db = true) :
    Inv ⟨replaceRec db.boats bid (unassignedBoat b lid),
         replaceRec db.loads lid (unassignedLoad l)⟩ = true := by
  rcases (Inv_iff db).mp h with ⟨h1, h2⟩
  apply (Inv_iff _).mpr
  refine ⟨?_, ?_⟩ <;> dsimp only
  · intro p hp
    rcases mem_replaceRec hp with rfl | ⟨hpo, hpne⟩
    · apply (loadEntryOk_iff _ _ _).mpr
      intro k hk
      dsimp [unassignedLoad] at hk
      exact Option.noConfusion hk
    · have hold := (loadEntryOk_iff db p.1 p.2).mp (h1 p hpo)
      apply (loadEntryOk_iff _ _ _).mpr
      intro k hk
      obtain ⟨b0, hb0, hmem⟩ := hold k hk
      by_cases hki : k.id = bid
      · have hbb : b = b0 := Option.some.inj (hb.symm.trans (hki ▸ hb0))
        refine ⟨unassignedBoat b lid, ?_, ?_⟩
        · rw [lookupRec_replaceRec, if_pos hki]
          simp [hb]
        · rw [← hbb] at hmem
          simp [unassignedBoat, List.mem_filter, loadKeyOf]
          exact ⟨hmem, hpne⟩
      · refine ⟨b0, ?_, hmem⟩
        rw [lookupRec_replaceRec, if_neg hki]
        exact hb0
  · intro p hp
    rcases mem_replaceRec hp with rfl | ⟨hpo, hpne⟩
    · apply (boatEntryOk_iff _ _ _).mpr
      intro k hk
      dsimp [unassignedBoat] at hk
      rw [List.mem_filter] at hk
      obtain ⟨hk1, hk2⟩ := hk
      have hkne : k.id ≠ lid := by
        intro he
        rw [he] at hk2
        simp at hk2
      have hmemb : (bid, b) ∈ db.boats := lookupRec_mem hb
      obtain ⟨l0, hl0, hcar⟩ := (boatEntryOk_iff db bid b).mp (h2 _ hmemb) k hk1
      refine ⟨l0, ?_, hcar⟩
      rw [lookupRec_replaceRec, if_neg hkne]
      exact hl0
    · have hold := (boatEntryOk_iff db p.1 p.2).mp (h2 p hpo)
      apply (boatEntryOk_iff _ _ _).mpr
      intro k hk
      obtain ⟨l0, hl0, hcar⟩ := hold k hk
      by_cases hki : k.id = lid
      · exfalso
        have hll : l = l0 := Option.some.inj (hl.symm.trans (hki ▸ hl0))
        rw [← hll, hc] at hcar
        have hcp : c = boatKeyOf p.1 := Option.some.inj hcar
        apply hpne
        rw [← hcid, hcp, boatKeyOf]
      · refine ⟨l0, ?_, hcar⟩
        rw [lookupRec_replaceRec, if_neg hki]
        exact hl0

theorem Inv_putLoadInBoat (db : Datastore) (req : LoadRouteReq) (h : Inv db = true) :
    Inv (putLoadInBoat db req).db = true := by
  cases hauth : req.authenticated with
  | false => simpa [putLoadInBoat, hauth] using h
  | true =>
    cases hb : lookupRec db.boats req.boat_id with
    | none =>
      cases hl : lookupRec db.loads req.load_id <;>
        simpa [putLoadInBoat, hauth, hb, hl, noWrite] using h
    | some b =>
      cases hl : lookupRec db.loads req.load_id with
      | none => simpa [putLoadInBoat, hauth, hb, hl, noWrite] using h
      | some l =>
        cases hc : l.carrier with
        | some c =>
          by_cases hcid : c.id = req.boat_id <;>
            simpa [putLoadInBoat, hauth, hb, hl, hc, hcid, noWrite, boatKeyOf] using h
        | none =>
          rw [putLoadInBoat_success db req hauth hb hl hc]
          exact Inv_assign_db hb hl hc h

theorem Inv_removeLoadFromBoat (db : Datastore) (req : LoadRouteReq) (h : Inv db = true) :
    Inv (removeLoadFromBoat db req).db = true := by
  cases hauth : req.authenticated with
  | false => simpa [removeLoadFromBoat, hauth] using h
  | true =>
    cases hb : lookupRec db.boats req.boat_id with
    | none =>
      cases hl : lookupRec db.loads req.load_id <;>
        simpa [removeLoadFromBoat, hauth, hb, hl, noWrite] using h
    | some b =>
      cases hl : lookupRec db.loads req.load_id with
      | none => simpa [removeLoadFromBoat, hauth, hb, hl, noWrite] using h
      | some l =>
        cases hc : l.carrier with
        | none => simpa [removeLoadFromBoat, hauth, hb, hl, hc, noWrite] using h
        | some c =>
          by_cases hke : keysAreEqual c (boatKeyOf req.boat_id) = true
          · rw [removeLoadFromBoat_success db req hauth hb hl hc hke]
            have hcid : c.id = req.boat_id := by
              simpa [keysAreEqual, boatKeyOf] using hke
            exact Inv_unassign_db hb hl hc hcid h
          · simpa [removeLoadFromBoat, hauth, hb, hl, hc, hke, noWrite] using h

theorem hydrateLoads_all_present {db : Datastore} {req : GetBoatReq} {ks : List Key}
    (h : ∀ k ∈ ks, (lookupRec db.loads k.id).isSome = true) :
    hydrateLoads db req ks =
      Except.ok (ks.map (fun k => ⟨k.id, loadSelf req k.id⟩)) := by
  induction ks with
  | nil => simp [hydrateLoads]
  | cons a as ih =>
    have ha := h a (List.mem_cons_self _ _)
    cases hl : lookupRec db.loads a.id with
    | none => rw [hl] at ha; simp at ha
    | some l =>
      simp only [hydrateLoads, hl]
      rw [ih (fun x hx => h x (List.mem_cons_of_mem _ hx))]
      simp

theorem hydrateLoads_missing {db : Datastore} {req : GetBoatReq} {ks : List Key} {k : Key}
    (hk : k ∈ ks) (hnone : lookupRec db.loads k.id = none) :
    hydrateLoads db req ks = Except.error JsError.typeError := by
  induction ks with
  | nil => simp at hk
  | cons a as ih =>
    rcases List.mem_cons.mp hk with rfl | hmem
    · simp [hydrateLoads, hnone]
    · cases hl : lookupRec db.loads a.id with
      | none => simp [hydrateLoads, hl]
      | some l =>
        simp only [hydrateLoads, hl]
        rw [ih hmem]

/-- C9: for every request, the PATCH `/boats/:boat_id` and PUT
`/boats/:boat_id` handlers resolve the identifier `helper` — which is not
bound in the module scope of `boats.js`, since the helpers module is
imported as `h` — before any datastore read or write, so both handlers
always throw a `ReferenceError` and never produce a response or a mutated
store. -/
theorem patch_put_always_throw (db : Datastore) (req : UpdateBoatReq) :
    patchBoat db req = Except.error JsError.referenceError ∧
    putBoat db req = Except.error JsError.referenceError :=
  ⟨rfl, rfl⟩

/-- C10: if an existing Boat's `loads` collection holds a reference to a
Load record that is absent from the store, the single-Boat fetch throws a
`TypeError` while building the loads projection (it reads the key property
of an undefined lookup result) instead of skipping the dangling reference,
null-filling it, or returning a structured error response. -/
theorem getBoat_dangling_ref_throws (db : Datastore) (req : GetBoatReq) (bid : Nat)
    (b : BoatRecord) (k : Key)
    (hid : req.boat_id = some bid)
    (hb : lookupRec db.boats bid = some b)
    (hk : k ∈ b.loads)
    (hnone : lookupRec db.loads k.id = none) :
    getBoat db req = Except.error JsError.typeError := by
  simp only [getBoat, hid, hb, hydrateLoads_missing hk hnone]

/-- Witness for C10 at a concrete store: Boat 1 references Load 9 but the
Load record is gone; the fetch throws. -/
theorem getBoat_dangling_ref_throws_witness :
    getReqSample.boat_id = some 1 ∧
    lookupRec dbDangling.boats 1 = some loadedBoat ∧
    loadKeyOf 9 ∈ loadedBoat.loads ∧
    lookupRec dbDangling.loads (loadKeyOf 9).id = none ∧
    getBoat dbDangling getReqSample = Except.error JsError.typeError :=
  ⟨rfl, by decide, by decide, rfl,
    getBoat_dangling_ref_throws dbDangling getReqSample 1 loadedBoat (loadKeyOf 9)
      rfl (by decide) (by decide) rfl⟩

/-- C8: a single-Boat fetch of an existing Boat whose load references all
resolve returns the projection `{id, name, type, length, loads, self}`
where each stored load reference has been replaced by the minimal
projection `{id, self-link}` obtained by fetching the Load record. -/
theorem getBoat_projection (db : Datastore) (req : GetBoatReq) (bid : Nat) (b : BoatRecord)
    (hid : req.boat_id = some bid)
    (hb : lookupRec db.boats bid = some b)
    (hall : ∀ k ∈ b.loads, (lookupRec db.loads k.id).isSome = true) :
    getBoat db req = Except.ok (GetBoatOutcome.success
      { id := toString bid, name := b.name, type := b.type, length := b.length,
        loads := b.loads.map (fun k => ⟨k.id, loadSelf req k.id⟩),
        self := boatSelf req bid }) := by
  simp only [getBoat, hid, hb, hydrateLoads_all_present hall]

/-- Witness for C8: after `Assign(1, 9)` succeeds on the sample store,
`Fetch(1)` yields the boat with `loads = [{id: 9, self: ".../loads/9"}]`. -/
theorem getBoat_projection_witness :
    getReqSample.boat_id = some 1 ∧
    lookupRec dbAfterAssign.boats 1 = some orcaAfter ∧
    (∀ k ∈ orcaAfter.loads, (lookupRec dbAfterAssign.loads k.id).isSome = true) ∧
    getBoat dbAfterAssign getReqSample = Except.ok (GetBoatOutcome.success
      { id := "1", name := "Orca", type := "sailboat", length := 28,
        loads := [⟨9, "http://example.com/loads/9"⟩],
        self := "http://example.com/boats/1" }) :=
  ⟨rfl, by decide, by decide, by
    have h := getBoat_projection dbAfterAssign getReqSample 1 orcaAfter rfl
      (by decide) (by decide)
    simpa [orcaAfter, loadSelf, boatSelf, getReqSample, loadKeyOf] using h⟩

/-- C1: when both records exist and the Load's `carrier` is null, a
successful `Assign(B, L)` stores a Load whose `carrier` references Boat B
and a Boat whose `loads` collection contains Load L's key — both sides of
the cross-record relationship hold in the store afterwards. -/
theorem assign_sets_both_sides (db : Datastore) (req : LoadRouteReq)
    (b : BoatRecord) (l : LoadRecord)
    (ha : req.authenticated = true)
    (hb : lookupRec db.boats req.boat_id = some b)
    (hl : lookupRec db.loads req.load_id = some l)
    (hc : l.carrier = none) :
    (putLoadInBoat db req).response = some ⟨204, none⟩ ∧
    (∃ l2, lookupRec (putLoadInBoat db req).db.loads req.load_id = some l2 ∧
      l2.carrier = some (boatKeyOf req.boat_id)) ∧
    (∃ b2, lookupRec (putLoadInBoat db req).db.boats req.boat_id = some b2 ∧
      loadKeyOf req.load_id ∈ b2.loads) := by
  rw [putLoadInBoat_success db req ha hb hl hc]
  dsimp only
  refine ⟨rfl, ⟨assignedLoad l req.boat_id, ?_, rfl⟩,
    ⟨assignedBoat b req.load_id, ?_, ?_⟩⟩
  · rw [lookupRec_replaceRec, if_pos rfl, hl]
    rfl
  · rw [lookupRec_replaceRec, if_pos rfl, hb]
    rfl
  · simp [assignedBoat]

/-- Witness for C1 on the sample store: assigning Load 9 to Boat 1. -/
theorem assign_sets_both_sides_witness :
    reqA19.authenticated = true ∧
    lookupRec dbSample.boats 1 = some orcaBoat ∧
    lookupRec dbSample.loads 9 = some beansLoad ∧
    beansLoad.carrier = none ∧
    ((putLoadInBoat dbSample reqA19).response = some ⟨204, none⟩ ∧
     (∃ l2, lookupRec (putLoadInBoat dbSample reqA19).db.loads 9 = some l2 ∧
       l2.carrier = some (boatKeyOf 1)) ∧
     (∃ b2, lookupRec (putLoadInBoat dbSample reqA19).db.boats 1 = some b2 ∧
       loadKeyOf 9 ∈ b2.loads)) :=
  ⟨rfl, by decide, by decide, rfl,
    assign_sets_both_sides dbSample reqA19 orcaBoat beansLoad rfl
      (by decide) (by decide) rfl⟩

/-- C3: assignment is not idempotent: whenever the Load's `carrier` is
non-null the assign handler fails with 403, citing "this boat" when the
carrier's id equals the target boat id and "another boat" otherwise, and
mutates nothing; consequently a second `Assign(B, L)` right after a
successful one fails with the "this boat" conflict. -/
theorem assign_not_idempotent (db : Datastore) (req : LoadRouteReq)
    (b : BoatRecord) (l : LoadRecord)
    (ha : req.authenticated = true)
    (hb : lookupRec db.boats req.boat_id = some b)
    (hl : lookupRec db.loads req.load_id = some l) :
    (∀ c, l.carrier = some c →
      (putLoadInBoat db req).db = db ∧
      (putLoadInBoat db req).writes = [] ∧
      (putLoadInBoat db req).response = some ⟨403, some
        (if c.id = req.boat_id
          then "The specified load has already been assigned to this boat."
          else "The specified load has already been assigned to another boat.")⟩) ∧
    (l.carrier = none →
      (putLoadInBoat (putLoadInBoat db req).db req).response = some ⟨403,
        some "The specified load has already been assigned to this boat."⟩) := by
  constructor
  · intro c hc
    by_cases hcid : c.id = req.boat_id <;>
      simp [putLoadInBoat, ha, hb, hl, hc, hcid, noWrite, boatKeyOf]
  · intro hc
    rw [putLoadInBoat_success db req ha hb hl hc]
    dsimp only
    have hb2 : lookupRec (replaceRec db.boats req.boat_id (assignedBoat b req.load_id))
        req.boat_id = some (assignedBoat b req.load_id) := by
      rw [lookupRec_replaceRec, if_pos rfl, hb]
      rfl
    have hl2 : lookupRec (replaceRec db.loads req.load_id (assignedLoad l req.boat_id))
        req.load_id = some (assignedLoad l req.boat_id) := by
      rw [lookupRec_replaceRec, if_pos rfl, hl]
      rfl
    simp only [putLoadInBoat, ha, if_true, hb2, hl2]
    simp [assignedLoad, boatKeyOf, noWrite]

/-- Witness for C3: re-assigning the already-carried Load 9 to Boat 1
conflicts with "this boat", both on the pre-assigned store and immediately
after a successful assignment. -/
theorem assign_not_idempotent_witness :
    reqA19.authenticated = true ∧
    lookupRec dbAssigned.boats 1 = some loadedBoat ∧
    lookupRec dbAssigned.loads 9 = some carriedLoad ∧
    carriedLoad.carrier = some (boatKeyOf 1) ∧
    beansLoad.carrier = none ∧
    (putLoadInBoat dbAssigned reqA19).response = some ⟨403,
      some "The specified load has already been assigned to this boat."⟩ ∧
    (putLoadInBoat (putLoadInBoat dbSample reqA19).db reqA19).response = some ⟨403,
      some "The specified load has already been assigned to this boat."⟩ := by
  refine ⟨rfl, by decide, by decide, rfl, rfl, ?_, ?_⟩
  · have h := (assign_not_idempotent dbAssigned reqA19 loadedBoat carriedLoad rfl
      (by decide) (by decide)).1 (boatKeyOf 1) rfl
    simpa [boatKeyOf] using h.2.2
  · exact (assign_not_idempotent dbSample reqA19 orcaBoat beansLoad rfl
      (by decide) (by decide)).2 rfl

/-- C4: the claim fails on the code.  Both the assign and the unassign
handler wrap their whole body in `if (req.authenticated)` with no else
branch, so an unauthenticated request is answered with nothing at all —
no Unauthenticated outcome, no reason string, no write. -/
theorem unauthenticated_no_response :
    (putLoadInBoat dbSample ⟨false, 1, 9⟩).response = none ∧
    (putLoadInBoat dbSample ⟨false, 1, 9⟩).db = dbSample ∧
    (putLoadInBoat dbSample ⟨false, 1, 9⟩).writes = [] ∧
    (removeLoadFromBoat dbAssigned ⟨false, 1, 9⟩).response = none ∧
    (removeLoadFromBoat dbAssigned ⟨false, 1, 9⟩).db = dbAssigned ∧
    (removeLoadFromBoat dbAssigned ⟨false, 1, 9⟩).writes = [] := by
  decide

/-- C5: when both records exist but the Load's `carrier` is null, or is
non-null yet fails the identifier-equality comparison with the target
boat key, the unassign handler answers 403 "The specified load is not on
this boat." and mutates nothing. -/
theorem unassign_wrong_boat_conflict (db : Datastore) (req : LoadRouteReq)
    (b : BoatRecord) (l : LoadRecord)
    (ha : req.authenticated = true)
    (hb : lookupRec db.boats req.boat_id = some b)
    (hl : lookupRec db.loads req.load_id = some l)
    (hc : l.carrier = none ∨
      ∃ c, l.carrier = some c ∧ keysAreEqual c (boatKeyOf req.boat_id) = false) :
    (removeLoadFromBoat db req).response =
      some ⟨403, some "The specified load is not on this boat."⟩ ∧
    (removeLoadFromBoat db req).db = db ∧
    (removeLoadFromBoat db req).writes = [] := by
  rcases hc with hc | ⟨c, hc, hke⟩
  · simp [removeLoadFromBoat, ha, hb, hl, hc, noWrite]
  · simp [removeLoadFromBoat, ha, hb, hl, hc, hke, noWrite]

/-- Witness for C5: unassigning the unassigned Load 9 from Boat 1. -/
theorem unassign_wrong_boat_conflict_witness :
    reqA19.authenticated = true ∧
    lookupRec dbSample.boats 1 = some orcaBoat ∧
    lookupRec dbSample.loads 9 = some beansLoad ∧
    beansLoad.carrier = none ∧
    ((removeLoadFromBoat dbSample reqA19).response =
      some ⟨403, some "The specified load is not on this boat."⟩ ∧
     (removeLoadFromBoat dbSample reqA19).db = dbSample ∧
     (removeLoadFromBoat dbSample reqA19).writes = []) :=
  ⟨rfl, by decide, by decide, rfl,
    unassign_wrong_boat_conflict dbSample reqA19 orcaBoat beansLoad rfl
      (by decide) (by decide) (Or.inl rfl)⟩

/-- C7: in every execution of the assign handler and of the unassign
handler, the write trace is either empty (the persistence step was not
reached) or consists of exactly the Boat update followed by the Load
update — the Load write never precedes the Boat write. -/
theorem boat_written_before_load (db : Datastore) (req : LoadRouteReq) :
    ((putLoadInBoat db req).writes = [] ∨
      ∃ br lr, (putLoadInBoat db req).writes =
        [WriteOp.updateBoat req.boat_id br, WriteOp.updateLoad req.load_id lr]) ∧
    ((removeLoadFromBoat db req).writes = [] ∨
      ∃ br lr, (removeLoadFromBoat db req).writes =
        [WriteOp.updateBoat req.boat_id br, WriteOp.updateLoad req.load_id lr]) := by
  constructor
  · cases hauth : req.authenticated with
    | false => exact Or.inl (by simp [putLoadInBoat, hauth])
    | true =>
      cases hb : lookupRec db.boats req.boat_id with
      | none =>
        exact Or.inl (by cases hl : lookupRec db.loads req.load_id <;>
          simp [putLoadInBoat, hauth, hb, hl, noWrite])
      | some b =>
        cases hl : lookupRec db.loads req.load_id with
        | none => exact Or.inl (by simp [putLoadInBoat, hauth, hb, hl, noWrite])
        | some l =>
          cases hc : l.carrier with
          | some c =>
            refine Or.inl ?_
            by_cases hcid : c.id = req.boat_id <;>
              simp [putLoadInBoat, hauth, hb, hl, hc, hcid, noWrite, boatKeyOf]
          | none =>
            refine Or.inr ⟨assignedBoat b req.load_id, assignedLoad l req.boat_id, ?_⟩
            rw [putLoadInBoat_success db req hauth hb hl hc]
  · cases hauth : req.authenticated with
    | false => exact Or.inl (by simp [removeLoadFromBoat, hauth])
    | true =>
      cases hb : lookupRec db.boats req.boat_id with
      | none =>
        exact Or.inl (by cases hl : lookupRec db.loads req.load_id <;>
          simp [removeLoadFromBoat, hauth, hb, hl, noWrite])
      | some b =>
        cases hl : lookupRec db.loads req.load_id with
        | none => exact Or.inl (by simp [removeLoadFromBoat, hauth, hb, hl, noWrite])
        | some l =>
          cases hc : l.carrier with
          | none => exact Or.inl (by simp [removeLoadFromBoat, hauth, hb, hl, hc, noWrite])
          | some c =>
            by_cases hke : keysAreEqual c (boatKeyOf req.boat_id) = true
            · refine Or.inr ⟨unassignedBoat b req.load_id, unassignedLoad l, ?_⟩
              rw [removeLoadFromBoat_success db req hauth hb hl hc hke]
            · exact Or.inl (by simp [removeLoadFromBoat, hauth, hb, hl, hc, hke, noWrite])

/-- C2 counterexample: the store `dbAssigned` satisfies the central
two-sided invariant and its Boat 1 carries Load 9, yet the owner's delete
request succeeds with 204 — the deletion is not rejected — removing the
Boat record while Load 9's `carrier` still references Boat 1, so the
invariant no longer holds afterwards. -/
theorem deleteBoat_not_guarded_cex :
    Inv dbAssigned = true ∧
    loadedBoat.loads = [loadKeyOf 9] ∧
    carriedLoad.carrier = some (boatKeyOf 1) ∧
    (deleteBoat dbAssigned delReqAlice).response = some ⟨204, none⟩ ∧
    lookupRec (deleteBoat dbAssigned delReqAlice).db.boats 1 = none ∧
    lookupRec (deleteBoat dbAssigned delReqAlice).db.loads 9 = some carriedLoad ∧
    Inv (deleteBoat dbAssigned delReqAlice).db = false := by
  decide

/-- C2 (amended): the assign and unassign operations preserve the central
two-sided invariant, but destruction of a Boat that currently participates
in an assignment is not guarded: an authenticated delete by the record's
owner succeeds unconditionally, removing the Boat record and leaving every
carried Load's `carrier` reference in place. -/
theorem invariant_preservation_amended :
    (∀ db req, Inv db = true → Inv (putLoadInBoat db req).db = true) ∧
    (∀ db req, Inv db = true → Inv (removeLoadFromBoat db req).db = true) ∧
    (∀ db req b, req.authenticated = true →
      lookupRec db.boats req.boat_id = some b →
      b.owner = some req.sub →
      (deleteBoat db req).response = some ⟨204, none⟩ ∧
      lookupRec (deleteBoat db req).db.boats req.boat_id = none ∧
      (deleteBoat db req).db.loads = db.loads) := by
  refine ⟨Inv_putLoadInBoat, Inv_removeLoadFromBoat, ?_⟩
  intro db req b ha hb ho
  simp only [deleteBoat, ha, if_true, hb, ho, if_pos rfl]
  refine ⟨by trivial, ?_, by trivial⟩
  rw [lookupRec_removeRec, if_pos rfl]

/-- Witness for C2 (amended): the preservation conjuncts applied to the
sample stores, and the unguarded deletion of the loaded Boat 1. -/
theorem invariant_preservation_amended_witness :
    Inv dbSample = true ∧
    Inv (putLoadInBoat dbSample reqA19).db = true ∧
    Inv dbAssigned = true ∧
    Inv (removeLoadFromBoat dbAssigned reqA19).db = true ∧
    delReqAlice.authenticated = true ∧
    lookupRec dbAssigned.boats 1 = some loadedBoat ∧
    loadedBoat.owner = some "alice" ∧
    ((deleteBoat dbAssigned delReqAlice).response = some ⟨204, none⟩ ∧
     lookupRec (deleteBoat dbAssigned delReqAlice).db.boats 1 = none ∧
     (deleteBoat dbAssigned delReqAlice).db.loads = dbAssigned.loads) :=
  ⟨by decide,
   invariant_preservation_amended.1 dbSample reqA19 (by decide),
   by decide,
   invariant_preservation_amended.2.1 dbAssigned reqA19 (by decide),
   rfl, by decide, rfl,
   invariant_preservation_amended.2.2 dbAssigned delReqAlice loadedBoat rfl
     (by decide) rfl⟩

/-- C6: for two distinct existing Boats and an unassigned existing Load,
the sequence Assign to the first, Unassign from the first, Assign to the
second succeeds at every step; after the Unassign the stored Load's
`carrier` is null and the first Boat's `loads` collection no longer
contains the Load's key. -/
theorem assign_unassign_assign_roundtrip (db : Datastore)
    (b1id b2id lid : Nat) (b1 b2 : BoatRecord) (l : LoadRecord)
    (hne : b1id ≠ b2id)
    (hb1 : lookupRec db.boats b1id = some b1)
    (hb2 : lookupRec db.boats b2id = some b2)
    (hl : lookupRec db.loads lid = some l)
    (hc : l.carrier = none) :
    (putLoadInBoat db ⟨true, b1id, lid⟩).response = some ⟨204, none⟩ ∧
    (removeLoadFromBoat (putLoadInBoat db ⟨true, b1id, lid⟩).db
      ⟨true, b1id, lid⟩).response = some ⟨204, none⟩ ∧
    (∃ l2, lookupRec (removeLoadFromBoat (putLoadInBoat db ⟨true, b1id, lid⟩).db
      ⟨true, b1id, lid⟩).db.loads lid = some l2 ∧ l2.carrier = none) ∧
    (∃ b12, lookupRec (removeLoadFromBoat (putLoadInBoat db ⟨true, b1id, lid⟩).db
      ⟨true, b1id, lid⟩).db.boats b1id = some b12 ∧ loadKeyOf lid ∉ b12.loads) ∧
    (putLoadInBoat (removeLoadFromBoat (putLoadInBoat db ⟨true, b1id, lid⟩).db
      ⟨true, b1id, lid⟩).db ⟨true, b2id, lid⟩).response = some ⟨204, none⟩ := by
  have e1 := putLoadInBoat_success db ⟨true, b1id, lid⟩ rfl hb1 hl hc
  rw [e1]
  dsimp only
  have hb1b : lookupRec (replaceRec db.boats b1id (assignedBoat b1 lid)) b1id =
      some (assignedBoat b1 lid) := by
    rw [lookupRec_replaceRec, if_pos rfl, hb1]
    rfl
  have hl1 : lookupRec (replaceRec db.loads lid (assignedLoad l b1id)) lid =
      some (assignedLoad l b1id) := by
    rw [lookupRec_replaceRec, if_pos rfl, hl]
    rfl
  have e2 := removeLoadFromBoat_success
    ⟨replaceRec db.boats b1id (assignedBoat b1 lid),
     replaceRec db.loads lid (assignedLoad l b1id)⟩
    ⟨true, b1id, lid⟩ rfl hb1b hl1 rfl (by simp [keysAreEqual, boatKeyOf])
  rw [e2]
  dsimp only
  have hb2b : lookupRec (replaceRec (replaceRec db.boats b1id (assignedBoat b1 lid))
      b1id (unassignedBoat (assignedBoat b1 lid) lid)) b2id = some b2 := by
    rw [lookupRec_replaceRec, if_neg (fun h => hne h.symm),
      lookupRec_replaceRec, if_neg (fun h => hne h.symm)]
    exact hb2
  have hl2 : lookupRec (replaceRec (replaceRec db.loads lid (assignedLoad l b1id))
      lid (unassignedLoad (assignedLoad l b1id))) lid =
      some (unassignedLoad (assignedLoad l b1id)) := by
    rw [lookupRec_replaceRec, if_pos rfl, lookupRec_replaceRec, if_pos rfl, hl]
    rfl
  have e3 := putLoadInBoat_success
    ⟨replaceRec (replaceRec db.boats b1id (assignedBoat b1 lid)) b1id
       (unassignedBoat (assignedBoat b1 lid) lid),
     replaceRec (replaceRec db.loads lid (assignedLoad l b1id)) lid
       (unassignedLoad (assignedLoad l b1id))⟩
    ⟨true, b2id, lid⟩ rfl hb2b hl2 rfl
  rw [e3]
  dsimp only
  refine ⟨by trivial, by trivial, ⟨unassignedLoad (assignedLoad l b1id), hl2, by trivial⟩, ?_, by trivial⟩
  refine ⟨unassignedBoat (assignedBoat b1 lid) lid, ?_, ?_⟩
  · rw [lookupRec_replaceRec, if_pos rfl, hb1b]
    rfl
  · simp [unassignedBoat, assignedBoat, List.mem_filter, loadKeyOf]

/-- Witness for C6 on the two-boat sample store: assign Load 9 to Boat 1,
unassign it, then assign it to Boat 2. -/
theorem assign_unassign_assign_roundtrip_witness :
    (1 : Nat) ≠ 2 ∧
    lookupRec dbTwoBoats.boats 1 = some orcaBoat ∧
    lookupRec dbTwoBoats.boats 2 = some pequodBoat ∧
    lookupRec dbTwoBoats.loads 9 = some beansLoad ∧
    beansLoad.carrier = none ∧
    ((putLoadInBoat dbTwoBoats ⟨true, 1, 9⟩).response = some ⟨204, none⟩ ∧
     (removeLoadFromBoat (putLoadInBoat dbTwoBoats ⟨true, 1, 9⟩).db
       ⟨true, 1, 9⟩).response = some ⟨204, none⟩ ∧
     (∃ l2, lookupRec (removeLoadFromBoat (putLoadInBoat dbTwoBoats ⟨true, 1, 9⟩).db
       ⟨true, 1, 9⟩).db.loads 9 = some l2 ∧ l2.carrier = none) ∧
     (∃ b12, lookupRec (removeLoadFromBoat (putLoadInBoat dbTwoBoats ⟨true, 1, 9⟩).db
       ⟨true, 1, 9⟩).db.boats 1 = some b12 ∧ loadKeyOf 9 ∉ b12.loads) ∧
     (putLoadInBoat (removeLoadFromBoat (putLoadInBoat dbTwoBoats ⟨true, 1, 9⟩).db
       ⟨true, 1, 9⟩).db ⟨true, 2, 9⟩).response = some ⟨204, none⟩) :=
  ⟨by decide, by decide, by decide, by decide, rfl,
    assign_unassign_assign_roundtrip dbTwoBoats 1 2 9 orcaBoat pequodBoat beansLoad
      (by decide) (by decide) (by decide) (by decide) rfl⟩

end CargoAPI
